import Mathlib

/-!
Verification development for the clutch_factor pipeline.

The definitions below are a shallow embedding of the two scripts at the
core of the repository:

  * `init_db.py` — `load_events` ingests CSV rows into the SQLite tables
    `leagues`, `teams`, `players`, `events` (modelled by `DB`).
  * `process_clutch.py` — `load_clutch_events` runs the SQL query that
    joins and filters goal events, and `main` builds the per-player
    summary (goal and assist contributions, name cleaning, groupby
    aggregation, scoring, sorting).

Machine integers are modelled as `Nat`/`Int` (no overflow is reachable in
the sources), SQL NULL as `Option`, and the float `score_per_match` as
`ℚ` (exact division; the float column is derived from the same integer
quotient).
-/

namespace ClutchFactor

/-- Row of the `leagues` table (`id INTEGER PRIMARY KEY, name TEXT UNIQUE`). -/
structure League where
  id : Nat
  name : String
deriving DecidableEq, Repr

/-- Row of the `teams` table; the `logo` and `league_id` columns are never
read by `process_clutch.py`, so they are omitted. -/
structure Team where
  id : Nat
  name : String
deriving DecidableEq, Repr

/-- Row of the `players` table; the `image` column is never read by
`process_clutch.py`, so it is omitted. -/
structure Player where
  id : Nat
  name : String
deriving DecidableEq, Repr

/-- Row of the `events` table of `init_db.py`.  Nullable columns are
`Option`. -/
structure DBEvent where
  type : String
  detail : String
  comments : Option String
  fixture_id : Nat
  league_id : Nat
  season : Nat
  time_elapsed : Option Int
  time_extra : Option Int
  team_id : Nat
  player_id : Option Nat
  assist_id : Option Nat
deriving DecidableEq, Repr

/-- The relational store `clutch.db`. -/
structure DB where
  leagues : List League
  teams : List Team
  players : List Player
  events : List DBEvent
deriving DecidableEq, Repr

/-- One row of the result set of the SQL query in `load_clutch_events`. -/
structure ClutchRow where
  fixture_id : Nat
  league_id : Nat
  league : String
  season : Nat
  team_id : Nat
  team_name : String
  player_id : Nat
  player_name : String
  time_elapsed : Option Int
  assist_id : Option Nat
  assist_name : Option String
deriving DecidableEq, Repr

/-- The WHERE clause of the query:
`e.type = 'Goal' AND e.detail IN ('Normal Goal','Penalty','Own Goal') AND
e.time_elapsed >= 76`.  A NULL `time_elapsed` fails the comparison, as in
SQL. -/
def clutchCond (e : DBEvent) : Bool :=
  e.type == "Goal" &&
    (e.detail == "Normal Goal" || e.detail == "Penalty" || e.detail == "Own Goal") &&
    (match e.time_elapsed with
     | some t => decide ((76 : Int) ≤ t)
     | none => false)

/-- The row the SQL query produces for one event, if any.  `id` is a
PRIMARY KEY in each of `leagues`, `teams`, `players`, so each inner JOIN
matches at most one row, modelled with `List.find?`; the inner JOINs on
league, team and scoring player drop the event when no match exists,
while the LEFT JOIN on the assisting player only yields NULL columns. -/
def eventToRow (db : DB) (e : DBEvent) : Option ClutchRow :=
  if clutchCond e then
    match db.leagues.find? (fun l => l.id == e.league_id),
          db.teams.find? (fun t => t.id == e.team_id),
          e.player_id.bind (fun pid => db.players.find? (fun p => p.id == pid)) with
    | some l, some t, some p =>
      some {
        fixture_id := e.fixture_id
        league_id := e.league_id
        league := l.name
        season := e.season
        team_id := e.team_id
        team_name := t.name
        player_id := p.id
        player_name := p.name
        time_elapsed := e.time_elapsed
        assist_id :=
          (e.assist_id.bind (fun i => db.players.find? (fun q => q.id == i))).map
            (fun q => q.id)
        assist_name :=
          (e.assist_id.bind (fun i => db.players.find? (fun q => q.id == i))).map
            (fun q => q.name) }
    | _, _, _ => none
  else none

/-- The full result set of the query in `load_clutch_events`. -/
def load_clutch_events (db : DB) : List ClutchRow :=
  db.events.filterMap (eventToRow db)

/-- Whitespace characters matched by the regex class `\s` and stripped by
`str.strip()` (ASCII range). -/
def pySpace (c : Char) : Bool :=
  c == ' ' || c == '\t' || c == '\n' || c == '\x0d' || c == '\x0b' || c == '\x0c'

/-- Characters of the regex class `[\s.-]`. -/
def isSepCh (c : Char) : Bool :=
  pySpace c || c == '.' || c == '-'

/-- Effect of `.str.replace(r"^\d+[\s.-]*", "", regex=True)` on the
character list: when the string starts with a digit, the maximal leading
run of digits and then the maximal run of separator characters are
removed (both quantifiers are greedy); otherwise the regex does not match
and the string is unchanged. -/
def stripLead : List Char → List Char
  | [] => []
  | c :: cs =>
    if c.isDigit then ((c :: cs).dropWhile Char.isDigit).dropWhile isSepCh
    else c :: cs

/-- Effect of `str.strip()`: drop whitespace at both ends. -/
def pyStrip (l : List Char) : List Char :=
  List.rdropWhile pySpace (l.dropWhile pySpace)

/-- The player-name cleaning of `process_clutch.py` lines 88-92. -/
def cleanName (s : String) : String :=
  String.mk (pyStrip (stripLead s.data))

/-- Whether a string is empty or starts with a non-digit character. -/
def noLeadingDigit (s : String) : Bool :=
  match s.data.head? with
  | some c => ! c.isDigit
  | none => true

/-- One contribution row of the intermediate `clutch_df` frame
(`Clutch_Goal` and `Clutch_Assist` are the 0/1 flag columns). -/
structure Contrib where
  player_id : Nat
  player_name : String
  team_id : Nat
  team_name : String
  league_id : Nat
  league : String
  season : Nat
  fixture_id : Nat
  clutch_goal : Nat
  clutch_assist : Nat
deriving DecidableEq, Repr

/-- The `goals` frame: every query row yields a scoring contribution with
`Clutch_Goal = 1`, `Clutch_Assist = 0`. -/
def goalContrib (r : ClutchRow) : Contrib :=
  { player_id := r.player_id
    player_name := r.player_name
    team_id := r.team_id
    team_name := r.team_name
    league_id := r.league_id
    league := r.league
    season := r.season
    fixture_id := r.fixture_id
    clutch_goal := 1
    clutch_assist := 0 }

/-- The `assists` frame: rows with a non-null `assist_name` yield an
assist contribution for the assisting player; the team, league, season
and fixture columns are copied from the goal row.  In the query result
`assist_id` and `assist_name` are both NULL or both set, since both come
from the LEFT JOINed `players` row. -/
def assistContrib (r : ClutchRow) : Option Contrib :=
  match r.assist_name with
  | some anm =>
    some
      { player_id := r.assist_id.getD 0
        player_name := anm
        team_id := r.team_id
        team_name := r.team_name
        league_id := r.league_id
        league := r.league
        season := r.season
        fixture_id := r.fixture_id
        clutch_goal := 0
        clutch_assist := 1 }
  | none => none

/-- `clutch_df = pd.concat([goals, assists])`. -/
def clutch_df (db : DB) : List Contrib :=
  (load_clutch_events db).map goalContrib ++
    (load_clutch_events db).filterMap assistContrib

/-- The name-cleaning step applied to the `player_name` column. -/
def cleanContrib (c : Contrib) : Contrib :=
  { c with player_name := cleanName c.player_name }

/-- `clutch_df` after the `player_name` column has been cleaned. -/
def cleaned_df (db : DB) : List Contrib :=
  (clutch_df db).map cleanContrib

/-- The groupby key
`(player_id, player_name, team_id, team_name, league_id, league, season)`. -/
structure GroupKey where
  player_id : Nat
  player_name : String
  team_id : Nat
  team_name : String
  league_id : Nat
  league : String
  season : Nat
deriving DecidableEq, Repr

/-- Key of a contribution row. -/
def keyOf (c : Contrib) : GroupKey :=
  ⟨c.player_id, c.player_name, c.team_id, c.team_name, c.league_id, c.league, c.season⟩

/-- The distinct group keys.  pandas orders the groups by sorted key; the
properties proved below are independent of row order, so the distinct
keys are taken in `dedup` order. -/
def groupKeys (cs : List Contrib) : List GroupKey :=
  (cs.map keyOf).dedup

/-- The contributions falling into the group of key `k`. -/
def groupMembers (k : GroupKey) (cs : List Contrib) : List Contrib :=
  cs.filter (fun c => decide (keyOf c = k))

/-- One row of the final `summary` frame, the `clutch_summary` table and
the CSV file. -/
structure SummaryRow where
  player_id : Nat
  player_name : String
  team_id : Nat
  team_name : String
  league_id : Nat
  league : String
  year : Nat
  clutch_matches : Nat
  clutch_goal : Nat
  clutch_assist : Nat
  clutch_score : Nat
  score_per_match : ℚ
deriving DecidableEq, Repr

/-- The aggregation of one group: `fixture_id` is aggregated with
`nunique` (count of distinct values), the two flag columns with `sum`; then
`Clutch_Score = Clutch_Goal * 3 + Clutch_Assist * 2` and
`Score_per_Match = Clutch_Score / Clutch_Matches`. -/
def mkRow (k : GroupKey) (ms : List Contrib) : SummaryRow :=
  let g := (ms.map (fun c => c.clutch_goal)).sum
  let a := (ms.map (fun c => c.clutch_assist)).sum
  let m := ((ms.map (fun c => c.fixture_id)).dedup).length
  { player_id := k.player_id
    player_name := k.player_name
    team_id := k.team_id
    team_name := k.team_name
    league_id := k.league_id
    league := k.league
    year := k.season
    clutch_matches := m
    clutch_goal := g
    clutch_assist := a
    clutch_score := g * 3 + a * 2
    score_per_match := ((g * 3 + a * 2 : Nat) : ℚ) / (m : ℚ) }

/-- The grouped aggregation (`groupby(...).agg(...)` plus the two derived
columns). -/
def summarize (cs : List Contrib) : List SummaryRow :=
  (groupKeys cs).map (fun k => mkRow k (groupMembers k cs))

/-- Insertion step of a descending sort on `Clutch_Score`. -/
def insertDesc (r : SummaryRow) : List SummaryRow → List SummaryRow
  | [] => [r]
  | x :: xs =>
    if x.clutch_score < r.clutch_score then r :: x :: xs
    else x :: insertDesc r xs

/-- `sort_values("Clutch_Score", ascending=False)`, modelled as an
insertion sort on the score.  pandas uses numpy quicksort here, whose
order among equal scores is not specified; all properties proved below
are independent of that tie order. -/
def sortDesc : List SummaryRow → List SummaryRow
  | [] => []
  | x :: xs => insertDesc x (sortDesc xs)

/-- The final summary produced by `main` of `process_clutch.py`: the rows
written to `clutch_summary.csv` and to the `clutch_summary` table. -/
def summary (db : DB) : List SummaryRow :=
  sortDesc (summarize (cleaned_df db))

/-- The lines `main` prints to stdout, its only log channel: the query
row count and the final row count.  `process_clutch.py` contains no other
logging. -/
def mainLogs (db : DB) : List String :=
  ["Clutch goal events: " ++ toString (load_clutch_events db).length,
   "✅ clutch_summary table updated with " ++ toString (summary db).length ++ " rows"]

/-!
Embedding of `load_events` of `init_db.py`: ingestion of `events_raw.csv`
rows into the database.  A CSV cell that is absent or empty is modelled
as `none` (Python reads both through `row.get(...) or ...`, under which
the empty string is falsy); the paired raw/flattened column variants such
as `team.id` / `team_id` are collapsed into one field, and cells are
carried already coerced to their numeric types (a present but malformed
numeric cell raises in Python and is out of scope of the claims below).
-/

/-- One record of `events_raw.csv`, with the fields `load_events` reads. -/
structure CSVRow where
  league : String
  league_id : Option Nat
  team_id : Nat
  team_name : Option String
  typ : String
  detail : String
  comments : Option String
  fixture_id : Nat
  season : Nat
  time_elapsed : Option Int
  time_extra : Option Int
  player_id : Option Nat
  player_name : Option String
  assist_id : Option Nat
  assist_name : Option String
deriving DecidableEq, Repr

/-- The `LEAGUE_IDS` constant of `init_db.py`: known league identifiers
used when the CSV lacks a `league_id` column. -/
def LEAGUE_IDS : List (String × Nat) :=
  [("Premier League", 39), ("La Liga", 140), ("Ligue 1", 61),
   ("Bundesliga", 78), ("Serie A", 135)]

/-- `LEAGUE_IDS.get(league_name)`. -/
def leagueIdLookup (name : String) : Option Nat :=
  (LEAGUE_IDS.find? (fun p => p.1 == name)).map (fun p => p.2)

/-- `INSERT OR IGNORE INTO leagues(id, name)`: skipped when the PRIMARY
KEY `id` or the UNIQUE `name` already exists. -/
def insertLeague (db : DB) (lid : Nat) (name : String) : DB :=
  if db.leagues.any (fun l => l.id == lid || l.name == name) then db
  else { db with leagues := db.leagues ++ [⟨lid, name⟩] }

/-- `INSERT OR IGNORE INTO teams(id, ...)`: skipped when the PRIMARY KEY
`id` already exists.  A NULL team name is stored as the empty string
(the model keeps `Team.name : String`, which `process_clutch.py` only
carries through). -/
def insertTeam (db : DB) (tid : Nat) (name : Option String) : DB :=
  if db.teams.any (fun t => t.id == tid) then db
  else { db with teams := db.teams ++ [⟨tid, name.getD ""⟩] }

/-- `INSERT OR IGNORE INTO players(id, ...)`: skipped when the PRIMARY
KEY `id` already exists. -/
def insertPlayer (db : DB) (pid : Nat) (name : String) : DB :=
  if db.players.any (fun p => p.id == pid) then db
  else { db with players := db.players ++ [⟨pid, name⟩] }

/-- Processing of one CSV row by `load_events`: resolve the league id,
falling back to `LEAGUE_IDS` and raising `ValueError` when neither is
available; insert league, team and players; append the event row. -/
def loadEventsStep (db : DB) (r : CSVRow) : Except String DB :=
  match (match r.league_id with
         | some i => some i
         | none => leagueIdLookup r.league) with
  | none => Except.error ("Unknown league id for " ++ r.league)
  | some lid =>
    let db := insertLeague db lid r.league
    let db := insertTeam db r.team_id r.team_name
    let db :=
      match r.player_id, r.player_name with
      | some pid, some pnm => insertPlayer db pid pnm
      | _, _ => db
    let db :=
      match r.assist_id, r.assist_name with
      | some aid, some anm => insertPlayer db aid anm
      | _, _ => db
    Except.ok { db with
      events := db.events ++
        [{ type := r.typ
           detail := r.detail
           comments := r.comments
           fixture_id := r.fixture_id
           league_id := lid
           season := r.season
           time_elapsed := r.time_elapsed
           time_extra := r.time_extra
           team_id := r.team_id
           player_id := r.player_id
           assist_id := r.assist_id }] }

/-- `load_events`: process the CSV rows in order, starting from the given
database state; the first `ValueError` aborts the run (the single
`conn.commit()` sits after the loop, so nothing is persisted on error). -/
def load_events (db : DB) (rows : List CSVRow) : Except String DB :=
  rows.foldlM loadEventsStep db

/-- Key columns of a summary row (`season` was renamed to `year`). -/
def keyOfRow (r : SummaryRow) : GroupKey :=
  ⟨r.player_id, r.player_name, r.team_id, r.team_name, r.league_id, r.league, r.year⟩

/-- Concrete qualifying goal event used in the examples below. -/
def exEventA : DBEvent :=
  { type := "Goal", detail := "Normal Goal", comments := none, fixture_id := 100,
    league_id := 39, season := 2023, time_elapsed := some 80, time_extra := none,
    team_id := 7, player_id := some 5, assist_id := none }

/-- A second qualifying goal by the same player in the same fixture. -/
def exEventB : DBEvent :=
  { exEventA with detail := "Penalty", time_elapsed := some 88 }

/-- Database with two qualifying goals of one player in one fixture. -/
def exDB2 : DB :=
  { leagues := [⟨39, "Premier League"⟩], teams := [⟨7, "TeamX"⟩],
    players := [⟨5, "A Smith"⟩], events := [exEventA, exEventB] }

/-- The summary row `exDB2` produces (`score_per_match` is 6/1 = 6). -/
def exRow2 : SummaryRow :=
  { player_id := 5, player_name := "A Smith", team_id := 7, team_name := "TeamX",
    league_id := 39, league := "Premier League", year := 2023,
    clutch_matches := 1, clutch_goal := 2, clutch_assist := 0,
    clutch_score := 6, score_per_match := ((6 : Nat) : ℚ) / ((1 : Nat) : ℚ) }

/-- Database whose only player name carries two leading squad-number
runs. -/
def exDB7 : DB :=
  { leagues := [⟨39, "Premier League"⟩], teams := [⟨7, "TeamX"⟩],
    players := [⟨5, "1 2X"⟩], events := [exEventA] }

/-- A qualifying goal event whose scorer id 99 is not in `players`. -/
def exEvent8 : DBEvent :=
  { exEventA with player_id := some 99 }

/-- Database with one qualifying goal whose player cannot be resolved. -/
def exDB8 : DB :=
  { leagues := [⟨39, "Premier League"⟩], teams := [⟨7, "TeamX"⟩],
    players := [], events := [exEvent8] }

/-- A qualifying goal by player 5 assisted by player 6. -/
def exEvent10 : DBEvent :=
  { exEventA with assist_id := some 6 }

/-- Database, with two players, whose single goal event has an assist. -/
def exDB10 : DB :=
  { leagues := [⟨39, "Premier League"⟩], teams := [⟨7, "TeamX"⟩],
    players := [⟨5, "A Smith"⟩, ⟨6, "B Jones"⟩], events := [exEvent10] }

/-- The assist contribution row `exDB10` produces. -/
def exAssistContrib : Contrib :=
  { player_id := 6, player_name := "B Jones", team_id := 7, team_name := "TeamX",
    league_id := 39, league := "Premier League", season := 2023, fixture_id := 100,
    clutch_goal := 0, clutch_assist := 1 }

/-- The empty database state `load_events` starts from. -/
def dbEmpty : DB := ⟨[], [], [], []⟩

/-- A CSV row whose league is neither given an id on the row nor present
in `LEAGUE_IDS`. -/
def exBadRow : CSVRow :=
  { league := "Eredivisie", league_id := none, team_id := 1, team_name := some "T",
    typ := "Goal", detail := "Normal Goal", comments := none, fixture_id := 1,
    season := 2023, time_elapsed := some 80, time_extra := none,
    player_id := some 1, player_name := some "P", assist_id := none, assist_name := none }

/-!
Helper lemmas shared by the claim theorems.
-/

theorem mem_insertDesc {r y : SummaryRow} {l : List SummaryRow} :
    y ∈ insertDesc r l ↔ y = r ∨ y ∈ l := by
  induction l with
  | nil => simp [insertDesc]
  | cons x xs ih =>
    unfold insertDesc
    by_cases h : x.clutch_score < r.clutch_score
    · simp [h, List.mem_cons]
    · simp [h, List.mem_cons, ih]
      tauto

theorem mem_sortDesc {y : SummaryRow} {l : List SummaryRow} :
    y ∈ sortDesc l ↔ y ∈ l := by
  induction l with
  | nil => simp [sortDesc]
  | cons x xs ih =>
    unfold sortDesc
    rw [mem_insertDesc]
    simp [ih]

theorem mem_summary {db : DB} {r : SummaryRow} :
    r ∈ summary db ↔
      ∃ k ∈ groupKeys (cleaned_df db), r = mkRow k (groupMembers k (cleaned_df db)) := by
  unfold summary summarize
  rw [mem_sortDesc]
  simp [List.mem_map, eq_comm]

theorem keyOfRow_mkRow (k : GroupKey) (ms : List Contrib) :
    keyOfRow (mkRow k ms) = k := rfl

theorem groupMembers_ne_nil {k : GroupKey} {cs : List Contrib}
    (h : k ∈ groupKeys cs) : groupMembers k cs ≠ [] := by
  unfold groupKeys at h
  rw [List.mem_dedup, List.mem_map] at h
  obtain ⟨c, hc, hkc⟩ := h
  have : c ∈ groupMembers k cs := by
    unfold groupMembers
    exact List.mem_filter.mpr ⟨hc, by simp [hkc]⟩
  exact List.ne_nil_of_mem this

theorem eventToRow_events (db : DB) (X : List DBEvent) :
    eventToRow { db with events := X } = eventToRow db := rfl

theorem load_events_update (db : DB) (X : List DBEvent) :
    load_clutch_events { db with events := X } = X.filterMap (eventToRow db) := rfl

theorem load_skip (db : DB) (e : DBEvent) (l1 l2 : List DBEvent)
    (h : eventToRow db e = none) :
    load_clutch_events { db with events := l1 ++ e :: l2 } =
      load_clutch_events { db with events := l1 ++ l2 } := by
  rw [load_events_update, load_events_update, List.filterMap_append, List.filterMap_append,
    List.filterMap_cons_none h]

theorem summary_eq_of_load {db₁ db₂ : DB}
    (h : load_clutch_events db₁ = load_clutch_events db₂) :
    summary db₁ = summary db₂ := by
  unfold summary cleaned_df clutch_df
  rw [h]

theorem mainLogs_eq_of_load {db₁ db₂ : DB}
    (h : load_clutch_events db₁ = load_clutch_events db₂) :
    mainLogs db₁ = mainLogs db₂ := by
  unfold mainLogs
  rw [h, summary_eq_of_load h]

theorem summary_exDB2_eval : summary exDB2 = [exRow2] := rfl

theorem exRow2_mem : exRow2 ∈ summary exDB2 := by
  rw [summary_exDB2_eval]
  exact List.mem_singleton_self _

theorem clutchCond_iff (e : DBEvent) :
    clutchCond e = true ↔
      (e.type = "Goal" ∧
        (e.detail = "Normal Goal" ∨ e.detail = "Penalty" ∨ e.detail = "Own Goal") ∧
        ∃ t, e.time_elapsed = some t ∧ (76 : Int) ≤ t) := by
  unfold clutchCond
  cases hte : e.time_elapsed with
  | none => simp
  | some t =>
    simp [and_assoc]
    tauto

/-- C1: an input event contributes to the clutch summary (the query
yields a row for it) iff its type is "Goal", its detail is one of
"Normal Goal", "Penalty", "Own Goal", and its `time_elapsed` is at least
76 (in particular 76 qualifies and 75 does not); moreover an event below
minute 76 leaves the whole summary unchanged.  The event's league, team
and scoring player are assumed resolvable, as §3 of the spec defines an
Event with these fields present. -/
theorem clutch_event_contributes_iff (db : DB) (e : DBEvent)
    (hl : (db.leagues.find? (fun l => l.id == e.league_id)).isSome)
    (ht : (db.teams.find? (fun t => t.id == e.team_id)).isSome)
    (hp : (e.player_id.bind (fun pid => db.players.find? (fun p => p.id == pid))).isSome) :
    ((eventToRow db e).isSome ↔
        (e.type = "Goal" ∧
          (e.detail = "Normal Goal" ∨ e.detail = "Penalty" ∨ e.detail = "Own Goal") ∧
          ∃ t, e.time_elapsed = some t ∧ (76 : Int) ≤ t)) ∧
      (∀ t, e.time_elapsed = some t → t < 76 → ∀ l1 l2 : List DBEvent,
        summary { db with events := l1 ++ e :: l2 } =
          summary { db with events := l1 ++ l2 }) := by
  constructor
  · obtain ⟨lg, hfl⟩ := Option.isSome_iff_exists.mp hl
    obtain ⟨tm, hft⟩ := Option.isSome_iff_exists.mp ht
    obtain ⟨pl, hfp⟩ := Option.isSome_iff_exists.mp hp
    unfold eventToRow
    by_cases hc : clutchCond e = true
    · rw [if_pos hc, hfl, hft, hfp]
      simp only [Option.isSome_some, true_iff]
      exact (clutchCond_iff e).mp hc
    · rw [if_neg hc]
      simp only [Option.isSome_none, Bool.false_eq_true, false_iff]
      intro hcond
      exact hc ((clutchCond_iff e).mpr hcond)
  · intro t hte hlt l1 l2
    have hc : ¬ (clutchCond e = true) := by
      intro hc
      obtain ⟨-, -, t', ht', hge⟩ := (clutchCond_iff e).mp hc
      rw [hte] at ht'
      have heq : t = t' := by injection ht'
      omega
    have hnone : eventToRow db e = none := by
      unfold eventToRow
      rw [if_neg hc]
    exact summary_eq_of_load (load_skip db e l1 l2 hnone)

/-- Witness for C1: the hypotheses hold and the filter accepts the
concrete qualifying event `exEventA` (minute 80) in `exDB2`. -/
theorem clutch_event_contributes_iff_witness :
    ((exDB2.leagues.find? (fun l => l.id == exEventA.league_id)).isSome ∧
      (exDB2.teams.find? (fun t => t.id == exEventA.team_id)).isSome ∧
      (exEventA.player_id.bind (fun pid => exDB2.players.find? (fun p => p.id == pid))).isSome) ∧
      (eventToRow exDB2 exEventA).isSome :=
  ⟨⟨by decide, by decide, by decide⟩,
    ((clutch_event_contributes_iff exDB2 exEventA (by decide) (by decide) (by decide)).1).mpr
      ⟨rfl, Or.inl rfl, 80, rfl, by decide⟩⟩

/-- C2: for every output row, `clutch_matches` is the number of distinct
`fixture_id` values among the contributions of its group; and on the
concrete input of two qualifying goals by one player in one fixture the
single output row has `clutch_matches = 1`, `clutch_goal = 2` and
`clutch_score = 6`. -/
theorem clutch_matches_distinct_fixtures :
    (∀ (db : DB) (r : SummaryRow), r ∈ summary db →
        r.clutch_matches =
          ((groupMembers (keyOfRow r) (cleaned_df db)).map
            (fun c => c.fixture_id)).toFinset.card) ∧
      (summary exDB2).map (fun r => (r.clutch_matches, r.clutch_goal, r.clutch_score)) =
        [(1, 2, 6)] := by
  constructor
  · intro db r hr
    obtain ⟨k, hk, rfl⟩ := mem_summary.mp hr
    rw [keyOfRow_mkRow, List.card_toFinset]
    rfl
  · decide

/-- Witness for C2: applied to the concrete database `exDB2` and its
output row. -/
theorem clutch_matches_distinct_fixtures_witness :
    exRow2 ∈ summary exDB2 ∧
      exRow2.clutch_matches =
        ((groupMembers (keyOfRow exRow2) (cleaned_df exDB2)).map
          (fun c => c.fixture_id)).toFinset.card :=
  ⟨exRow2_mem, clutch_matches_distinct_fixtures.1 exDB2 exRow2 exRow2_mem⟩

/-- C3: every output row satisfies
`clutch_score = clutch_goal * 3 + clutch_assist * 2`, for all inputs. -/
theorem clutch_score_formula (db : DB) (r : SummaryRow) (h : r ∈ summary db) :
    r.clutch_score = r.clutch_goal * 3 + r.clutch_assist * 2 := by
  obtain ⟨k, hk, rfl⟩ := mem_summary.mp h
  rfl

/-- Witness for C3: applied to the concrete database `exDB2` and its
output row. -/
theorem clutch_score_formula_witness :
    exRow2 ∈ summary exDB2 ∧
      exRow2.clutch_score = exRow2.clutch_goal * 3 + exRow2.clutch_assist * 2 :=
  ⟨exRow2_mem, clutch_score_formula exDB2 exRow2 exRow2_mem⟩

/-- C4: every emitted summary row has `clutch_matches ≥ 1`, and its
`score_per_match` equals `clutch_score / clutch_matches` (exact rational
division, hence always well defined). -/
theorem summary_row_invariant (db : DB) (r : SummaryRow) (h : r ∈ summary db) :
    1 ≤ r.clutch_matches ∧
      r.score_per_match = (r.clutch_score : ℚ) / (r.clutch_matches : ℚ) := by
  obtain ⟨k, hk, rfl⟩ := mem_summary.mp h
  constructor
  · have h1 := groupMembers_ne_nil hk
    have h2 : ((groupMembers k (cleaned_df db)).map (fun c => c.fixture_id)) ≠ [] := by
      intro hmap
      exact h1 (List.map_eq_nil_iff.mp hmap)
    have h3 : ((groupMembers k (cleaned_df db)).map (fun c => c.fixture_id)).dedup ≠ [] := by
      rw [Ne, List.dedup_eq_nil]
      exact h2
    exact List.length_pos.mpr h3
  · rfl

/-- Witness for C4: applied to the concrete database `exDB2` and its
output row. -/
theorem summary_row_invariant_witness :
    exRow2 ∈ summary exDB2 ∧
      (1 ≤ exRow2.clutch_matches ∧
        exRow2.score_per_match = (exRow2.clutch_score : ℚ) / (exRow2.clutch_matches : ℚ)) :=
  ⟨exRow2_mem, summary_row_invariant exDB2 exRow2 exRow2_mem⟩

theorem head_dropWhile_false {α : Type} (p : α → Bool) (l : List α) :
    ∀ c, (l.dropWhile p).head? = some c → p c = false := by
  induction l with
  | nil => intro c h; simp at h
  | cons a l ih =>
    intro c h
    rw [List.dropWhile_cons] at h
    by_cases hp : p a
    · rw [if_pos hp] at h
      exact ih c h
    · rw [if_neg hp] at h
      have ha : a = c := by simpa using h
      subst ha
      simpa using hp

theorem dropWhile_eq_self_of_head {α : Type} (p : α → Bool) (l : List α)
    (h : ∀ c, l.head? = some c → p c = false) : l.dropWhile p = l := by
  cases l with
  | nil => rfl
  | cons a l =>
    rw [List.dropWhile_cons]
    have ha := h a rfl
    simp [ha]

theorem pyStrip_idem (l : List Char) : pyStrip (pyStrip l) = pyStrip l := by
  unfold pyStrip
  have hpre := List.rdropWhile_prefix pySpace (l.dropWhile pySpace)
  obtain ⟨suf, hsuf⟩ := hpre
  have hdrop : (List.rdropWhile pySpace (l.dropWhile pySpace)).dropWhile pySpace =
      List.rdropWhile pySpace (l.dropWhile pySpace) := by
    apply dropWhile_eq_self_of_head
    intro c hc
    apply head_dropWhile_false pySpace l c
    rw [← hsuf]
    cases hR : List.rdropWhile pySpace (l.dropWhile pySpace) with
    | nil => rw [hR] at hc; simp at hc
    | cons a rest =>
      rw [hR] at hc
      simp only [List.head?_cons, Option.some.injEq] at hc
      simp [hc]
  rw [hdrop]
  exact List.rdropWhile_idempotent pySpace (l.dropWhile pySpace)

theorem stripLead_eq_self (m : List Char)
    (hm : ∀ c, m.head? = some c → c.isDigit = false) : stripLead m = m := by
  cases m with
  | nil => rfl
  | cons a rest =>
    have ha := hm a rfl
    simp [stripLead, ha]

/-- C6 counterexample: the name cleaning is not idempotent; on the input
"1 2" one application yields "2", a second application yields "". -/
theorem cleanName_not_idempotent :
    cleanName (cleanName "1 2") ≠ cleanName "1 2" := by decide

/-- C6 amended: the cleaning is idempotent on every string whose cleaned
form does not begin with a digit.  In general a second application may
strip a further digit run, because the regex removes only the first
leading run of digits with its separators. -/
theorem cleanName_idempotent_unless_digit (s : String)
    (h : noLeadingDigit (cleanName s) = true) :
    cleanName (cleanName s) = cleanName s := by
  have h' : ∀ c, (cleanName s).data.head? = some c → c.isDigit = false := by
    intro c hc
    unfold noLeadingDigit at h
    rw [hc] at h
    simpa using h
  have hsl : stripLead (cleanName s).data = (cleanName s).data :=
    stripLead_eq_self _ h'
  calc cleanName (cleanName s)
      = String.mk (pyStrip (stripLead (cleanName s).data)) := rfl
    _ = String.mk (pyStrip (cleanName s).data) := by rw [hsl]
    _ = String.mk (pyStrip (pyStrip (stripLead s.data))) := rfl
    _ = String.mk (pyStrip (stripLead s.data)) := by rw [pyStrip_idem]
    _ = cleanName s := rfl

/-- Witness for the amended C6 at the concrete name `"10. John Smith"`,
whose cleaned form `"John Smith"` starts with a letter. -/
theorem cleanName_idempotent_unless_digit_witness :
    noLeadingDigit (cleanName "10. John Smith") = true ∧
      cleanName (cleanName "10. John Smith") = cleanName "10. John Smith" :=
  ⟨by decide, cleanName_idempotent_unless_digit "10. John Smith" (by decide)⟩

/-- C7: evaluation at the failing input.  In the database `exDB7` the
scorer of the only qualifying goal is named "1 2X"; cleaning removes only
the first digit run, so the final summary contains the player name "2X",
which begins with the digit 2 — contradicting the property asserted by
the repository test `test_player_names_do_not_start_with_digit`. -/
theorem summary_name_starts_with_digit :
    (summary exDB7).map (fun r => r.player_name) = ["2X"] ∧
      ∃ c, ("2X" : String).data.head? = some c ∧ c.isDigit = true :=
  ⟨by decide, ⟨'2', rfl, by decide⟩⟩

/-- C8 counterexample: in `exDB8` the only event is a qualifying goal
(minute 80, detail "Normal Goal") whose scorer id 99 resolves to no
player.  The event is indeed dropped and the run completes, but the
complete log output of the run is the two routine count lines — no
warning about the skipped event is logged anywhere. -/
theorem unresolved_player_no_warning :
    eventToRow exDB8 exEvent8 = none ∧
      mainLogs exDB8 =
        ["Clutch goal events: 0", "✅ clutch_summary table updated with 0 rows"] ∧
      summary exDB8 = [] := by
  refine ⟨by decide, by decide, by decide⟩

/-- C8 amended: a goal event whose player identity cannot be resolved is
silently skipped — no warning is logged: it contributes no row, does not
abort the run, and leaves the summary and the log output exactly as if
the event were absent. -/
theorem unresolved_player_skipped (db : DB) (e : DBEvent)
    (hp : e.player_id.bind (fun pid => db.players.find? (fun p => p.id == pid)) = none) :
    eventToRow db e = none ∧
      ∀ l1 l2 : List DBEvent,
        summary { db with events := l1 ++ e :: l2 } =
            summary { db with events := l1 ++ l2 } ∧
          mainLogs { db with events := l1 ++ e :: l2 } =
            mainLogs { db with events := l1 ++ l2 } := by
  have hnone : eventToRow db e = none := by
    unfold eventToRow
    by_cases hc : clutchCond e = true
    · rw [if_pos hc, hp]
      cases db.leagues.find? (fun l => l.id == e.league_id) <;>
        cases db.teams.find? (fun t => t.id == e.team_id) <;> rfl
    · rw [if_neg hc]
  exact ⟨hnone, fun l1 l2 =>
    ⟨summary_eq_of_load (load_skip db e l1 l2 hnone),
      mainLogs_eq_of_load (load_skip db e l1 l2 hnone)⟩⟩

/-- Witness for the amended C8: the hypothesis holds for the concrete
event `exEvent8` in `exDB8`, and the event yields no query row. -/
theorem unresolved_player_skipped_witness :
    exEvent8.player_id.bind (fun pid => exDB8.players.find? (fun p => p.id == pid)) = none ∧
      eventToRow exDB8 exEvent8 = none :=
  ⟨by decide, (unresolved_player_skipped exDB8 exEvent8 (by decide)).1⟩

/-- C9: during ingestion, a CSV row whose league id is neither on the row
nor in the static `LEAGUE_IDS` lookup makes `load_events` abort with the
fatal "Unknown league id" error (given that the rows before it processed
without error), instead of the row being silently dropped. -/
theorem unknown_league_aborts (db0 : DB) (l1 : List CSVRow) (r : CSVRow) (l2 : List CSVRow)
    (h1 : ∃ db1, load_events db0 l1 = Except.ok db1)
    (h2 : r.league_id = none) (h3 : leagueIdLookup r.league = none) :
    load_events db0 (l1 ++ r :: l2) =
      Except.error ("Unknown league id for " ++ r.league) := by
  obtain ⟨db1, hdb1⟩ := h1
  have hstep : loadEventsStep db1 r =
      Except.error ("Unknown league id for " ++ r.league) := by
    unfold loadEventsStep
    rw [h2, h3]
  unfold load_events at hdb1 ⊢
  rw [List.foldlM_append, hdb1]
  show List.foldlM loadEventsStep db1 (r :: l2) = _
  rw [List.foldlM_cons, hstep]
  rfl

/-- Witness for C9: the concrete row `exBadRow` (league "Eredivisie",
no id on the row, not in `LEAGUE_IDS`) aborts a run started on the empty
database. -/
theorem unknown_league_aborts_witness :
    (∃ db1, load_events dbEmpty [] = Except.ok db1) ∧
      exBadRow.league_id = none ∧ leagueIdLookup exBadRow.league = none ∧
      load_events dbEmpty ([] ++ exBadRow :: []) =
        Except.error ("Unknown league id for " ++ exBadRow.league) :=
  ⟨⟨dbEmpty, rfl⟩, rfl, by decide,
    unknown_league_aborts dbEmpty [] exBadRow [] ⟨dbEmpty, rfl⟩ rfl (by decide)⟩

theorem load_assist_isSome {db : DB} {r : ClutchRow} (h : r ∈ load_clutch_events db)
    (hn : r.assist_name.isSome) : ∃ i, r.assist_id = some i := by
  unfold load_clutch_events at h
  rw [List.mem_filterMap] at h
  obtain ⟨e, he, heq⟩ := h
  unfold eventToRow at heq
  by_cases hc : clutchCond e = true
  · rw [if_pos hc] at heq
    rcases hL : db.leagues.find? (fun l => l.id == e.league_id) with _ | lg <;>
      rw [hL] at heq <;>
      rcases hT : db.teams.find? (fun t => t.id == e.team_id) with _ | tm <;>
        rw [hT] at heq <;>
        rcases hP : e.player_id.bind (fun pid => db.players.find? (fun p => p.id == pid))
            with _ | pl <;>
          rw [hP] at heq <;>
          first
            | exact absurd heq (fun hne => Option.noConfusion hne)
            | skip
    have hr := Option.some.inj heq
    subst hr
    have hn' : (Option.map (fun q => q.name)
        (e.assist_id.bind (fun i => db.players.find? (fun q => q.id == i)))).isSome = true := hn
    cases hE : e.assist_id.bind (fun i => db.players.find? (fun q => q.id == i)) with
    | none => rw [hE] at hn'; simp at hn'
    | some q => exact ⟨q.id, rfl⟩
  · rw [if_neg hc] at heq
    exact absurd heq (fun hne => Option.noConfusion hne)

/-- C10: every assist contribution carries the team, league, season and
fixture of the goal row it was emitted from — the scoring team's
identity, not a team of the assisting player (the `players` table has no
team association at all). -/
theorem assist_attributed_to_goal_team (db : DB) (c : Contrib)
    (hc : c ∈ clutch_df db) (ha : c.clutch_assist = 1) :
    ∃ r ∈ load_clutch_events db,
      r.assist_id = some c.player_id ∧ r.assist_name = some c.player_name ∧
      c.team_id = r.team_id ∧ c.team_name = r.team_name ∧
      c.league_id = r.league_id ∧ c.league = r.league ∧
      c.season = r.season ∧ c.fixture_id = r.fixture_id := by
  unfold clutch_df at hc
  rw [List.mem_append] at hc
  rcases hc with hg | hassist
  · rw [List.mem_map] at hg
    obtain ⟨r, hr, hcr⟩ := hg
    rw [← hcr] at ha
    simp [goalContrib] at ha
  · rw [List.mem_filterMap] at hassist
    obtain ⟨r, hr, hcr⟩ := hassist
    unfold assistContrib at hcr
    cases hn : r.assist_name with
    | none => rw [hn] at hcr; exact absurd hcr (by simp)
    | some anm =>
      rw [hn] at hcr
      have hc' := Option.some.inj hcr
      subst hc'
      obtain ⟨i, hi⟩ := load_assist_isSome hr (by rw [hn]; rfl)
      refine ⟨r, hr, ?_, ?_, rfl, rfl, rfl, rfl, rfl, rfl⟩
      · simp [hi]
      · exact hn

/-- Witness for C10: applied to the assist contribution of `exDB10`,
whose single goal by player 5 for TeamX is assisted by player 6; the
assist row for player 6 carries TeamX. -/
theorem assist_attributed_to_goal_team_witness :
    exAssistContrib ∈ clutch_df exDB10 ∧ exAssistContrib.clutch_assist = 1 ∧
      ∃ r ∈ load_clutch_events exDB10,
        r.assist_id = some exAssistContrib.player_id ∧
        r.assist_name = some exAssistContrib.player_name ∧
        exAssistContrib.team_id = r.team_id ∧ exAssistContrib.team_name = r.team_name ∧
        exAssistContrib.league_id = r.league_id ∧ exAssistContrib.league = r.league ∧
        exAssistContrib.season = r.season ∧ exAssistContrib.fixture_id = r.fixture_id :=
  ⟨by decide, rfl, assist_attributed_to_goal_team exDB10 exAssistContrib (by decide) rfl⟩

end ClutchFactor
